import Mathlib

/-!
# Verification of the `MultiGenieMachine` hyperagent state machine

Shallow embedding of `src/AI/hyperagent.py`: the `MultiGenieModel` record,
the capture functions (`capture_original_question`, `capture_answer`,
`capture_news_queries`, `capture_news`, `on_exit_ai_decides_path`), the
guard `bots_found`, and the transition tables of `MultiGenieMachine`.

Python values obtained from `json.loads` are modelled by the inductive
`Json`; Python exceptions (`KeyError`, `TypeError`, `AttributeError`,
`IndexError`, and the state machine's `InvalidTransition`) are modelled by
`Except` with error type `PyErr`.  Mutation of the pydantic model is
modelled by explicit state passing; because a Python exception can escape
*after* some fields were already assigned, fallible capture functions
return `Except (PyErr × MultiGenieModel) MultiGenieModel`, the error case
carrying the model as mutated at the moment the exception was raised.
-/

namespace Hyperagent

/-- Python exceptions that can be raised by the embedded code, plus the
state machine's `InvalidTransition` (python-statemachine's
`TransitionNotAllowed`). -/
inductive PyErr where
  | keyError (k : String)
  | typeError
  | attributeError
  | indexError
  | invalidTransition
  deriving DecidableEq, Repr

/-- A JSON value as returned by Python's `json.loads`: `None`, booleans,
numbers (integers suffice for the properties at stake), strings, lists and
dicts.  Dicts are association lists with (as `json.loads` guarantees)
pairwise distinct keys, in insertion order. -/
inductive Json where
  | null
  | bool (b : Bool)
  | num (n : Int)
  | str (s : String)
  | arr (xs : List Json)
  | obj (kvs : List (String × Json))

/-- Python truthiness of a `json.loads` value: `None`, `False`, `0`, `""`,
`[]` and `{ }` are falsy, everything else truthy. -/
def Json.truthy : Json → Bool
  | .null => false
  | .bool b => b
  | .num n => n != 0
  | .str s => s != ""
  | .arr xs => !xs.isEmpty
  | .obj kvs => !kvs.isEmpty

/-- Python `v.items()`: the key/value pairs of a dict; any non-dict value
coming out of `json.loads` has no `items` attribute, so it raises
`AttributeError`. -/
def Json.items : Json → Except PyErr (List (String × Json))
  | .obj kvs => .ok kvs
  | _ => .error .attributeError

/-- Python `v[k]` for a string key `k`: dict lookup (raising `KeyError`
when the key is absent); on any other `json.loads` value, indexing by a
string raises `TypeError`. -/
def Json.getItem (v : Json) (k : String) : Except PyErr Json :=
  match v with
  | .obj kvs =>
    match kvs.lookup k with
    | some w => .ok w
    | none => .error (.keyError k)
  | _ => .error .typeError

/-- Python `len(v)`: defined for dicts, lists and strings; `TypeError`
otherwise. -/
def Json.pyLen : Json → Except PyErr Nat
  | .obj kvs => .ok kvs.length
  | .arr xs => .ok xs.length
  | .str s => .ok s.length
  | _ => .error .typeError

/-- Python iteration `for x in v`: lists yield their elements, dicts their
keys, strings their one-character substrings; other `json.loads` values are
not iterable (`TypeError`). -/
def Json.pyIter : Json → Except PyErr (List Json)
  | .arr xs => .ok xs
  | .obj kvs => .ok (kvs.map (fun kv => Json.str kv.1))
  | .str s => .ok (s.toList.map (fun c => Json.str (String.singleton c)))
  | _ => .error .typeError

/-- Python `v[0]`: first element of a list (`IndexError` when empty), first
character of a string, `KeyError` on a dict produced by `json.loads`
(whose keys are strings, never the integer `0`), `TypeError` otherwise. -/
def Json.firstItem : Json → Except PyErr Json
  | .arr [] => .error .indexError
  | .arr (x :: _) => .ok x
  | .str s =>
    match s.toList with
    | [] => .error .indexError
    | c :: _ => .ok (Json.str (String.singleton c))
  | .obj _ => .error (.keyError "0")
  | _ => .error .typeError

/-- Substring test used to model Python's `sub in s` on strings. -/
def strContainsSub (s sub : String) : Bool :=
  if sub = "" then true else (s.splitOn sub).length > 1

/-- Python `k in v` for a string `k`: key containment on dicts, substring
test on strings, element membership on lists (a list element equals the
string `k` only when it is that string); `TypeError` otherwise. -/
def Json.pyContains (v : Json) (k : String) : Except PyErr Bool :=
  match v with
  | .obj kvs => .ok (kvs.any (fun kv => kv.1 == k))
  | .str s => .ok (strContainsSub s k)
  | .arr xs =>
    .ok (xs.any (fun x =>
      match x with
      | .str s => s == k
      | _ => false))
  | _ => .error .typeError

/-- The raw actor input fed into the machine: the text itself together
with the result of Python's `json.loads` on it (`none` when the text is
not valid JSON, which is where `json.JSONDecodeError` is raised). -/
structure ActorInput where
  text : String
  loads : Option Json

/-- One entry of `model.rephrased_questions`: the dict
`{name, template, question, reason}` built by `on_exit_ai_decides_path`. -/
structure Rephrased where
  name : String
  template : String
  question : Json
  reason : Json

/-- The pydantic `MultiGenieModel`.  `bots` is the dict mapping bot names
to their descriptive templates (association list, distinct keys, insertion
order).  pydantic does not validate plain field assignment, so `answer`,
`follow_up` and the `news` entries hold whatever JSON values the capture
functions assigned. -/
structure MultiGenieModel where
  actor_input : ActorInput
  original_question : String
  bots : List (String × String)
  rephrased_questions : List Rephrased
  answer : Json
  follow_up : Json
  news_queries : List String
  news : List (List (String × Json))

/-- `capture_original_question`: `self.model.original_question =
self.model.actor_input`. -/
def capture_original_question (m : MultiGenieModel) : MultiGenieModel :=
  { m with original_question := m.actor_input.text }

/-- `capture_answer`: `json.loads` the actor input (returning unchanged on
`JSONDecodeError`), then assign `model.answer = d["answer"]` and *then*
`model.follow_up = d["follow_up"]`.  Each subscript can raise; an error
after the first assignment leaves the model with `answer` already
overwritten. -/
def capture_answer (m : MultiGenieModel) :
    Except (PyErr × MultiGenieModel) MultiGenieModel :=
  match m.actor_input.loads with
  | none => .ok m
  | some d =>
    match d.getItem "answer" with
    | .error e => .error (e, m)
    | .ok a =>
      let m1 := { m with answer := a }
      match d.getItem "follow_up" with
      | .error e => .error (e, m1)
      | .ok f => .ok { m1 with follow_up := f }

/-- `capture_news_queries`: split the actor input on newlines, strip the
double-quote characters from each line, store the list. -/
def capture_news_queries (m : MultiGenieModel) : MultiGenieModel :=
  { m with news_queries :=
      (m.actor_input.text.splitOn "\n").map (fun q => q.replace "\"" "") }

/-- The allow-listed keys projected by `capture_news`. -/
def allowKeys : List String := ["title", "url", "content", "publishedDate"]

/-- The dict comprehension
`{k: first[k] for k in allowKeys if k in first}` of `capture_news`,
iterating the allow-list in order; the membership test runs before each
subscript. -/
def projLoop (first : Json) : List String → Except PyErr (List (String × Json))
  | [] => .ok []
  | k :: ks =>
    match first.pyContains k with
    | .error e => .error e
    | .ok false => projLoop first ks
    | .ok true =>
      match first.getItem k with
      | .error e => .error e
      | .ok v =>
        match projLoop first ks with
        | .error e => .error e
        | .ok rest => .ok ((k, v) :: rest)

/-- The list comprehension of `capture_news`: for each entry `n`, evaluate
the filter `len(n["results"]) > 0` first, and only for entries passing it
project the first result onto the allow-listed keys. -/
def news_loop : List Json → Except PyErr (List (List (String × Json)))
  | [] => .ok []
  | n :: rest =>
    match n.getItem "results" with
    | .error e => .error e
    | .ok rs =>
      match rs.pyLen with
      | .error e => .error e
      | .ok len =>
        if len > 0 then
          match rs.firstItem with
          | .error e => .error e
          | .ok first =>
            match projLoop first allowKeys with
            | .error e => .error e
            | .ok proj =>
              match news_loop rest with
              | .error e => .error e
              | .ok tail => .ok (proj :: tail)
        else news_loop rest

/-- `capture_news`: `json.loads` the actor input (unchanged on
`JSONDecodeError`), run the filtering/projecting comprehension, then assign
`model.news`.  An exception inside the comprehension escapes before the
assignment, leaving `news` untouched. -/
def capture_news (m : MultiGenieModel) :
    Except (PyErr × MultiGenieModel) MultiGenieModel :=
  match m.actor_input.loads with
  | none => .ok m
  | some v =>
    match v.pyIter with
    | .error e => .error (e, m)
    | .ok ns =>
      match news_loop ns with
      | .error e => .error (e, m)
      | .ok news => .ok { m with news := news }

/-- `bot_name in self.model.bots.keys()`. -/
def keysContain (bots : List (String × String)) (n : String) : Bool :=
  bots.any (fun p => p.1 == n)

/-- The per-entry acceptance test of the guard `bots_found`, i.e. the
short-circuiting condition
`bot_name in self.model.bots.keys() and bot_value and bot_value["question"]`
of its `for` loop (hyperagent.py line 192).  `bot_value["question"]` is
only evaluated when the name is known and the value truthy, and its
`KeyError`/`TypeError` escapes. -/
def guard_entry_test (bots : List (String × String)) (n : String) (v : Json) :
    Except PyErr Bool :=
  if keysContain bots n then
    if v.truthy then
      match v.getItem "question" with
      | .error e => .error e
      | .ok q => .ok q.truthy
    else .ok false
  else .ok false

/-- The per-entry filter of the comprehension in `on_exit_ai_decides_path`,
i.e. the clause
`if bot_name in self.model.bots.keys() and bot_value and bot_value["question"]`
(hyperagent.py line 178). -/
def exit_filter_test (bots : List (String × String)) (n : String) (v : Json) :
    Except PyErr Bool :=
  if keysContain bots n then
    if v.truthy then
      match v.getItem "question" with
      | .error e => .error e
      | .ok q => .ok q.truthy
    else .ok false
  else .ok false

/-- Boolean version of `guard_entry_test`: does the guard accept the entry
(without raising)? -/
def entry_accepts (bots : List (String × String)) (n : String) (v : Json) :
    Bool :=
  match guard_entry_test bots n v with
  | .ok true => true
  | _ => false

/-- The `for bot_name, bot_value in response.items()` loop of `bots_found`:
return `True` at the first accepted entry, `False` after the loop; the loop
sits outside the `try`, so an exception from an entry test escapes. -/
def bots_found_loop (bots : List (String × String)) :
    List (String × Json) → Except PyErr Bool
  | [] => .ok false
  | (n, v) :: rest =>
    match guard_entry_test bots n v with
    | .error e => .error e
    | .ok true => .ok true
    | .ok false => bots_found_loop bots rest

/-- The guard `bots_found(event_data)`: the `try` block wraps only the
`print`s and `json.loads(event_data.args[0])`, so `except Exception`
returns `False` exactly on parse failure; the subsequent `.items()` call
and entry tests run outside the `try` and their exceptions escape. -/
def bots_found (m : MultiGenieModel) (payload : ActorInput) :
    Except PyErr Bool :=
  match payload.loads with
  | none => .ok false
  | some response =>
    match response.items with
    | .error e => .error e
    | .ok kvs => bots_found_loop m.bots kvs

/-- The list comprehension of `on_exit_ai_decides_path`: entries are
processed in order; for an accepted entry the built dict evaluates
`self.model.bots.get(bot_name, "bots/unknown_bot.jinja2")`,
`bot_value["question"]` and `bot_value["reason"]` (the last raising
`KeyError` when absent, aborting the whole assignment). -/
def rephrase_loop (bots : List (String × String)) :
    List (String × Json) → Except PyErr (List Rephrased)
  | [] => .ok []
  | (n, v) :: rest =>
    match exit_filter_test bots n v with
    | .error e => .error e
    | .ok false => rephrase_loop bots rest
    | .ok true =>
      match v.getItem "question" with
      | .error e => .error e
      | .ok q =>
        match v.getItem "reason" with
        | .error e => .error e
        | .ok r =>
          match rephrase_loop bots rest with
          | .error e => .error e
          | .ok tail =>
            .ok ({ name := n,
                   template := (bots.lookup n).getD "bots/unknown_bot.jinja2",
                   question := q,
                   reason := r } :: tail)

/-- `on_exit_ai_decides_path`: the `try` catches only `JSONDecodeError`
(then `paths = dict()`); `paths.items()` and the comprehension run outside
it, and on success the whole comprehension result is assigned to
`model.rephrased_questions` (also when it is the empty list). -/
def on_exit_ai_decides_path (m : MultiGenieModel) :
    Except (PyErr × MultiGenieModel) MultiGenieModel :=
  let paths : Json :=
    match m.actor_input.loads with
    | none => .obj []
    | some v => v
  match paths.items with
  | .error e => .error (e, m)
  | .ok kvs =>
    match rephrase_loop m.bots kvs with
    | .error e => .error (e, m)
    | .ok entries => .ok { m with rephrased_questions := entries }

/-- The states of `MultiGenieMachine`. -/
inductive MGState where
  | intro
  | ai_decides_path
  | user_views_rephrasing
  | user_views_no_bots_found
  | ai_creates_answer
  | ai_creates_news_queries
  | searching_news
  | user_views_answer
  deriving DecidableEq, Repr

/-- The triggers of `MultiGenieMachine`. -/
inductive Trigger where
  | user_input
  | processing_done
  | advance
  deriving DecidableEq, Repr

/-- The guard annotations appearing in the transition table:
`cond="bots_found"` and `unless="bots_found"`. -/
inductive GuardKind where
  | bots_found_cond
  | bots_found_unless
  deriving DecidableEq, Repr

/-- One declared transition: source, destination, optional guard. -/
structure Cand where
  src : MGState
  dst : MGState
  guard : Option GuardKind

/-- The transition table of `MultiGenieMachine`, one ordered candidate list
per trigger, in declaration order (hyperagent.py lines 87-101). -/
def transitions : Trigger → List Cand
  | .user_input =>
    [⟨.intro, .ai_decides_path, none⟩,
     ⟨.user_views_answer, .ai_decides_path, none⟩,
     ⟨.user_views_no_bots_found, .ai_decides_path, none⟩]
  | .processing_done =>
    [⟨.ai_decides_path, .user_views_rephrasing, some .bots_found_cond⟩,
     ⟨.ai_decides_path, .user_views_no_bots_found, some .bots_found_unless⟩,
     ⟨.ai_creates_answer, .ai_creates_news_queries, none⟩,
     ⟨.ai_creates_news_queries, .searching_news, none⟩,
     ⟨.searching_news, .user_views_answer, none⟩]
  | .advance =>
    [⟨.user_views_rephrasing, .ai_creates_answer, none⟩]

/-- Evaluate a guard annotation on the raw event payload:
`unless="bots_found"` is the negation of `cond="bots_found"` (and raises
whenever `bots_found` raises). -/
def evalGuard (g : GuardKind) (m : MultiGenieModel) (p : ActorInput) :
    Except PyErr Bool :=
  match g with
  | .bots_found_cond => bots_found m p
  | .bots_found_unless =>
    match bots_found m p with
    | .error e => .error e
    | .ok b => .ok (!b)

/-- Modelled from the spec: transition resolution of the orchestrator
engine (genie_flow's `GenieStateMachine` on top of python-statemachine,
which is not part of this repository).  Candidates for the fired trigger
are scanned in declaration order; only candidates whose source is the
current state are considered, and the first one whose guard (if any)
evaluates true is taken; a raising guard aborts resolution. -/
def resolveCand (m : MultiGenieModel) (p : ActorInput) (s : MGState) :
    List Cand → Except PyErr (Option MGState)
  | [] => .ok none
  | c :: rest =>
    if c.src = s then
      match c.guard with
      | none => .ok (some c.dst)
      | some g =>
        match evalGuard g m p with
        | .error e => .error e
        | .ok true => .ok (some c.dst)
        | .ok false => resolveCand m p s rest
    else resolveCand m p s rest

/-- The exit action attached to each state: the `exit=` arguments of the
`State` declarations plus the naming-convention callback
`on_exit_ai_decides_path`; `user_views_rephrasing` has none. -/
def exitAction (s : MGState) (m : MultiGenieModel) :
    Except (PyErr × MultiGenieModel) MultiGenieModel :=
  match s with
  | .intro => .ok (capture_original_question m)
  | .ai_decides_path => on_exit_ai_decides_path m
  | .user_views_rephrasing => .ok m
  | .user_views_no_bots_found => .ok (capture_original_question m)
  | .ai_creates_answer => capture_answer m
  | .ai_creates_news_queries => .ok (capture_news_queries m)
  | .searching_news => capture_news m
  | .user_views_answer => .ok (capture_original_question m)

/-- Modelled from the spec: firing a trigger (`advance_on_event`).  The
engine resolves the candidate transition first (guards read the raw
payload via `event_data.args`); if none matches the trigger fails with
`InvalidTransition` and the model is left unchanged.  Otherwise the raw
actor input is stored on the model, the exit action of the source state
runs, and on success the machine lands in the destination state. -/
def fire (s : MGState) (t : Trigger) (m : MultiGenieModel) (p : ActorInput) :
    Except (PyErr × MultiGenieModel) (MGState × MultiGenieModel) :=
  match resolveCand m p s (transitions t) with
  | .error e => .error (e, m)
  | .ok none => .error (.invalidTransition, m)
  | .ok (some dst) =>
    let m1 := { m with actor_input := p }
    match exitAction s m1 with
    | .error em => .error em
    | .ok m2 => .ok (dst, m2)

/-- Is any transition with trigger `t` declared out of state `s`? -/
def hasTransition (s : MGState) (t : Trigger) : Bool :=
  (transitions t).any (fun c => c.src == s)

/-- Specification-side projection, following the spec's words: the first
search result "restricted to the allow-listed keys {title, url, content,
publishedDate} (keys absent from the first result are omitted)".  Compared
against the `projLoop` comprehension taken from the source. -/
def specProject (r : Json) : List (String × Json) :=
  allowKeys.filterMap fun k =>
    match r.getItem k with
    | .ok v => some (k, v)
    | .error _ => none

/-- Specification-side value of `model.news`, following the spec's words:
"exactly the entries whose results list is non-empty, each projected to the
first result"; entries with zero results are dropped.  Compared against the
`news_loop` comprehension taken from the source. -/
def specNews (ns : List Json) : List (List (String × Json)) :=
  ns.filterMap fun n =>
    match n.getItem "results" with
    | .ok (.arr (r :: _)) => some (specProject r)
    | _ => none

/-- The default `bots` catalogue of `MultiGenieModel`. -/
def defaultBots : List (String × String) :=
  [("Task Dictionary", "task_dictionary/task_bot.jinja2")]

/-- A freshly initialised `MultiGenieModel` (all pydantic defaults). -/
def initModel : MultiGenieModel :=
  { actor_input := ⟨"", none⟩
    original_question := ""
    bots := defaultBots
    rephrased_questions := []
    answer := .str ""
    follow_up := .str ""
    news_queries := []
    news := [] }

/-- A model that has already completed one routing round, so that
`rephrased_questions` is non-empty. -/
def modelWithPriorRound : MultiGenieModel :=
  { initModel with rephrased_questions :=
      [{ name := "Task Dictionary",
         template := "task_dictionary/task_bot.jinja2",
         question := .str "old question",
         reason := .str "old reason" }] }

/-- The raw payload `{}`: valid JSON, the empty mapping. -/
def payloadEmptyObj : ActorInput := ⟨"\x7b\x7d", some (.obj [])⟩

/-- The raw payload `{"Task Dictionary": {"reason": "r"}}`: a known bot
name whose truthy value lacks the `question` key. -/
def payloadNoQuestion : ActorInput :=
  ⟨"\x7b\"Task Dictionary\": \x7b\"reason\": \"r\"\x7d\x7d",
   some (.obj [("Task Dictionary", .obj [("reason", .str "r")])])⟩

/-- The raw payload `{"answer": "a"}`: parses as a mapping with an
`answer` key but no `follow_up` key. -/
def payloadAnswerOnly : ActorInput :=
  ⟨"\x7b\"answer\": \"a\"\x7d", some (.obj [("answer", .str "a")])⟩

/-- The raw payload `{"answer": "a", "follow_up": "f"}`. -/
def payloadAnswerFollowUp : ActorInput :=
  ⟨"\x7b\"answer\": \"a\", \"follow_up\": \"f\"\x7d",
   some (.obj [("answer", .str "a"), ("follow_up", .str "f")])⟩

/-- The raw payload `{"Task Dictionary": {"question": "q1", "reason": "r1"}}`
of Scenario B. -/
def payloadScenarioB : ActorInput :=
  ⟨"\x7b\"Task Dictionary\": \x7b\"question\": \"q1\", \"reason\": \"r1\"\x7d\x7d",
   some (.obj [("Task Dictionary",
     .obj [("question", .str "q1"), ("reason", .str "r1")])])⟩

/-- The parsed entries of Scenario E's payload
`[{"results":[{"title":"t","url":"u"}]},{"results":[]}]`. -/
def scenarioESources : List Json :=
  [.obj [("results", .arr [.obj [("title", .str "t"), ("url", .str "u")]])],
   .obj [("results", .arr [])]]

/-- The raw payload of Scenario E. -/
def payloadScenarioE : ActorInput :=
  ⟨"[\x7b\"results\":[\x7b\"title\":\"t\",\"url\":\"u\"\x7d]\x7d,\x7b\"results\":[]\x7d]",
   some (.arr scenarioESources)⟩

/-- Well-formedness of one search-source entry: it carries a `results` key
holding a list whose first element (when present) is a dict. -/
def GoodSource (n : Json) : Prop :=
  ∃ rs, n.getItem "results" = .ok (Json.arr rs) ∧
    ∀ r, rs.head? = some r → ∃ kvs, r = Json.obj kvs

/-- A model whose latest actor input is `{"answer": "a"}`, with previously
captured answer and follow-up. -/
def modelAnswerOnly : MultiGenieModel :=
  { initModel with actor_input := payloadAnswerOnly,
                   answer := .str "oldA", follow_up := .str "oldF" }

/-- A model whose latest actor input is Scenario B's routing payload. -/
def modelScenarioB : MultiGenieModel :=
  { initModel with actor_input := payloadScenarioB }

/-- The model after `on_exit_ai_decides_path` runs on `modelScenarioB`. -/
def modelScenarioBAfter : MultiGenieModel :=
  { modelScenarioB with rephrased_questions :=
      [{ name := "Task Dictionary",
         template := "task_dictionary/task_bot.jinja2",
         question := .str "q1", reason := .str "r1" }] }

/-- A model whose latest actor input is Scenario E's search payload. -/
def modelScenarioE : MultiGenieModel :=
  { initModel with actor_input := payloadScenarioE }

/-! ## Helper lemmas -/

/-- The two copies of the acceptance condition (guard loop, exit-action
filter) are the same function. -/
theorem tests_agree (bots : List (String × String)) (n : String) (v : Json) :
    exit_filter_test bots n v = guard_entry_test bots n v := rfl

/-- Existence of a key in an association list, as tested by `any`, agrees
with `List.lookup` succeeding. -/
theorem anyKey_eq_lookup_isSome {β : Type} (l : List (String × β)) (k : String) :
    (l.any fun p => p.1 == k) = (l.lookup k).isSome := by
  induction l with
  | nil => rfl
  | cons p rest ih =>
    rcases p with ⟨a, b⟩
    by_cases h : a = k
    · subst h
      simp [List.lookup]
    · have h1 : (a == k) = false := by simp [h]
      have h2 : (k == a) = false := by simp [Ne.symm h]
      simp [List.lookup, ih, h1, h2]

/-- `keysContain` in terms of `List.lookup`. -/
theorem keysContain_eq_lookup_isSome (bots : List (String × String)) (n : String) :
    keysContain bots n = (bots.lookup n).isSome :=
  anyKey_eq_lookup_isSome bots n

/-- When every entry's guard test evaluates to `ok false`, the guard loop
returns `ok false`. -/
theorem bots_found_loop_all_false (bots : List (String × String))
    (kvs : List (String × Json))
    (h : ∀ nv ∈ kvs, guard_entry_test bots nv.1 nv.2 = .ok false) :
    bots_found_loop bots kvs = .ok false := by
  induction kvs with
  | nil => rfl
  | cons nv rest ih =>
    rcases nv with ⟨n, v⟩
    have hh := h (n, v) (List.mem_cons_self _ _)
    simp only [bots_found_loop, hh]
    exact ih fun nv' h' => h nv' (List.mem_cons_of_mem _ h')

/-- When every entry's guard test evaluates without raising, the guard loop
returns `ok` of the disjunction of the accepted entries. -/
theorem bots_found_loop_total (bots : List (String × String))
    (kvs : List (String × Json))
    (h : ∀ nv ∈ kvs, ∃ b, guard_entry_test bots nv.1 nv.2 = .ok b) :
    bots_found_loop bots kvs =
      .ok (kvs.any fun nv => entry_accepts bots nv.1 nv.2) := by
  induction kvs with
  | nil => rfl
  | cons nv rest ih =>
    rcases nv with ⟨n, v⟩
    obtain ⟨b, hb⟩ := h (n, v) (List.mem_cons_self _ _)
    have ihr := ih fun nv' h' => h nv' (List.mem_cons_of_mem _ h')
    cases b with
    | true =>
      simp only [bots_found_loop, hb, List.any_cons]
      simp [entry_accepts, hb]
    | false =>
      simp only [bots_found_loop, hb, ihr, List.any_cons]
      simp [entry_accepts, hb]

/-- When every entry's filter test evaluates to `ok false`, the
comprehension of `on_exit_ai_decides_path` produces the empty list. -/
theorem rephrase_loop_all_false (bots : List (String × String))
    (kvs : List (String × Json))
    (h : ∀ nv ∈ kvs, exit_filter_test bots nv.1 nv.2 = .ok false) :
    rephrase_loop bots kvs = .ok [] := by
  induction kvs with
  | nil => rfl
  | cons nv rest ih =>
    rcases nv with ⟨n, v⟩
    have hh := h (n, v) (List.mem_cons_self _ _)
    simp only [rephrase_loop, hh]
    exact ih fun nv' h' => h nv' (List.mem_cons_of_mem _ h')

/-- A filter test returning `ok true` implies the bot name is a key of the
catalogue. -/
theorem exit_filter_test_true_keysContain (bots : List (String × String))
    (n : String) (v : Json)
    (h : exit_filter_test bots n v = .ok true) :
    keysContain bots n = true := by
  by_contra hk
  simp only [exit_filter_test, Bool.not_eq_true] at h hk
  rw [hk] at h
  simp at h

/-- Every entry produced by the comprehension of `on_exit_ai_decides_path`
takes its `template` from the catalogue entry of its bot name — never from
the `"bots/unknown_bot.jinja2"` fallback default. -/
theorem rephrase_loop_template (bots : List (String × String))
    (kvs : List (String × Json)) (es : List Rephrased)
    (h : rephrase_loop bots kvs = .ok es) :
    ∀ e ∈ es, bots.lookup e.name = some e.template := by
  induction kvs generalizing es with
  | nil =>
    simp only [rephrase_loop] at h
    cases h
    intro e he
    simp at he
  | cons nv rest ih =>
    rcases nv with ⟨n, v⟩
    simp only [rephrase_loop] at h
    rcases ht : exit_filter_test bots n v with e0 | b
    · rw [ht] at h; cases h
    · rw [ht] at h
      cases b with
      | false => exact ih es h
      | true =>
        rcases hq : v.getItem "question" with e0 | q
        · rw [hq] at h; cases h
        · rw [hq] at h
          rcases hr : v.getItem "reason" with e0 | r
          · rw [hr] at h; cases h
          · rw [hr] at h
            rcases htail : rephrase_loop bots rest with e0 | tail
            · rw [htail] at h; cases h
            · rw [htail] at h
              cases h
              intro e he
              rcases List.mem_cons.mp he with he1 | he2
              · subst he1
                have hk := exit_filter_test_true_keysContain bots n v ht
                rw [keysContain_eq_lookup_isSome] at hk
                rcases ho : bots.lookup n with _ | t
                · rw [ho] at hk; simp at hk
                · simp [ho]
              · exact ih tail htail e he2

/-- On a dict, the projection comprehension of `capture_news` never raises
and computes the key-wise restriction. -/
theorem projLoop_obj (kvs : List (String × Json)) :
    ∀ ks : List String,
      projLoop (Json.obj kvs) ks =
        .ok (ks.filterMap fun k =>
          match (Json.obj kvs).getItem k with
          | .ok v => some (k, v)
          | .error _ => none) := by
  intro ks
  induction ks with
  | nil => rfl
  | cons k rest ih =>
    simp only [projLoop, Json.pyContains]
    rw [anyKey_eq_lookup_isSome]
    rcases ho : kvs.lookup k with _ | v
    · simp only [ho, Option.isSome_none, List.filterMap_cons]
      have : (Json.obj kvs).getItem k = .error (.keyError k) := by
        simp [Json.getItem, ho]
      rw [ih, this]
    · simp only [ho, Option.isSome_some, List.filterMap_cons]
      have : (Json.obj kvs).getItem k = .ok v := by
        simp [Json.getItem, ho]
      rw [this, ih]

/-- On well-formed search-source entries the comprehension of
`capture_news` never raises and computes the spec-side filter/projection. -/
theorem news_loop_spec (ns : List Json) (h : ∀ n ∈ ns, GoodSource n) :
    news_loop ns = .ok (specNews ns) := by
  induction ns with
  | nil => rfl
  | cons n rest ih =>
    obtain ⟨rs, hres, hobj⟩ := h n (List.mem_cons_self _ _)
    have ihr := ih fun n' h' => h n' (List.mem_cons_of_mem _ h')
    simp only [news_loop, hres, Json.pyLen]
    cases rs with
    | nil =>
      simp only [List.length_nil, gt_iff_lt, Nat.lt_irrefl, if_false]
      rw [ihr]
      simp only [specNews, List.filterMap_cons, hres]
    | cons r rs' =>
      obtain ⟨kvs, hk⟩ := hobj r rfl
      subst hk
      simp only [List.length_cons, gt_iff_lt, Nat.succ_pos, if_true,
        Json.firstItem]
      rw [projLoop_obj, ihr]
      simp only [specNews, List.filterMap_cons, hres, specProject]

/-- When the comprehension of `on_exit_ai_decides_path` succeeds, the bot
names it stores are exactly the entries the guard test accepts, in input
order. -/
theorem rephrase_loop_names (bots : List (String × String))
    (kvs : List (String × Json)) (es : List Rephrased)
    (h : rephrase_loop bots kvs = .ok es) :
    es.map Rephrased.name =
      (kvs.filter fun nv => entry_accepts bots nv.1 nv.2).map Prod.fst := by
  induction kvs generalizing es with
  | nil =>
    simp only [rephrase_loop] at h
    cases h
    rfl
  | cons nv rest ih =>
    rcases nv with ⟨n, v⟩
    simp only [rephrase_loop] at h
    rcases ht : exit_filter_test bots n v with e0 | b
    · rw [ht] at h; cases h
    · rw [ht] at h
      have hacc : entry_accepts bots n v = b := by
        have := tests_agree bots n v
        rw [this] at ht
        simp [entry_accepts, ht]
        cases b <;> simp
      cases b with
      | false =>
        rw [List.filter_cons]
        simp only [hacc, if_false, Bool.false_eq_true]
        exact ih es h
      | true =>
        rcases hq : v.getItem "question" with e0 | q
        · rw [hq] at h; cases h
        · rw [hq] at h
          rcases hr : v.getItem "reason" with e0 | r
          · rw [hr] at h; cases h
          · rw [hr] at h
            rcases htail : rephrase_loop bots rest with e0 | tail
            · rw [htail] at h; cases h
            · rw [htail] at h
              cases h
              rw [List.filter_cons]
              simp only [hacc, if_true]
              simp only [List.map_cons]
              rw [ih tail htail]

/-! ## Claim theorems -/

/-- C3: guard `bots_found` and the filter inside `on_exit_ai_decides_path`
accept/reject the exact same set of bot entries for any input (including
entries whose value lacks a `question` key, where both raise the same
`KeyError`, and entries lacking only a `reason` key, which both accept):
the two per-entry tests are the same function, and whenever the
comprehension of `on_exit_ai_decides_path` succeeds, the bot names stored
in `rephrased_questions` are exactly the entries the guard test accepts,
in input order. -/
theorem c3_guard_filter_consistent :
    (∀ bots n v, exit_filter_test bots n v = guard_entry_test bots n v) ∧
    (∀ bots kvs es, rephrase_loop bots kvs = .ok es →
      es.map Rephrased.name =
        (kvs.filter fun nv => entry_accepts bots nv.1 nv.2).map Prod.fst) :=
  ⟨tests_agree, rephrase_loop_names⟩

/-- Witness for C3 at Scenario B's entry: the two tests agree on it, and
the single stored name matches the single guard-accepted entry. -/
theorem c3_guard_filter_consistent_witness :
    (exit_filter_test defaultBots "Task Dictionary"
        (Json.obj [("question", Json.str "q1"), ("reason", Json.str "r1")]) =
      guard_entry_test defaultBots "Task Dictionary"
        (Json.obj [("question", Json.str "q1"), ("reason", Json.str "r1")])) ∧
    ([({ name := "Task Dictionary",
         template := "task_dictionary/task_bot.jinja2",
         question := Json.str "q1", reason := Json.str "r1" } : Rephrased)].map
        Rephrased.name =
      (([("Task Dictionary",
          Json.obj [("question", Json.str "q1"), ("reason", Json.str "r1")])]).filter
          fun nv => entry_accepts defaultBots nv.1 nv.2).map Prod.fst) :=
  ⟨c3_guard_filter_consistent.1 defaultBots "Task Dictionary"
      (Json.obj [("question", Json.str "q1"), ("reason", Json.str "r1")]),
   c3_guard_filter_consistent.2 defaultBots
      [("Task Dictionary",
        Json.obj [("question", Json.str "q1"), ("reason", Json.str "r1")])]
      [{ name := "Task Dictionary",
         template := "task_dictionary/task_bot.jinja2",
         question := Json.str "q1", reason := Json.str "r1" }] rfl⟩

/-- C6: for every state `S` and trigger `T` with no declared transition
out of `S`, firing `T` fails with `InvalidTransition` and the model (hence
also the current state, which only changes on a successful fire) is left
unchanged. -/
theorem c6_invalid_transition (s : MGState) (t : Trigger)
    (m : MultiGenieModel) (p : ActorInput)
    (h : hasTransition s t = false) :
    fire s t m p = .error (.invalidTransition, m) := by
  cases s <;> cases t <;> first
    | exact absurd h (by decide)
    | rfl

/-- Witness for C6: `advance` fired from `intro`. -/
theorem c6_invalid_transition_witness :
    fire .intro .advance initModel payloadEmptyObj =
      .error (.invalidTransition, initModel) :=
  c6_invalid_transition .intro .advance initModel payloadEmptyObj (by decide)

/-- C8: `capture_news_queries` stores the newline-split of the actor input
with the double-quote characters removed from each line, preserving line
count and order (the `i`-th stored query is the `i`-th line, dequoted). -/
theorem c8_capture_news_queries (m : MultiGenieModel) (i : Nat) :
    ((capture_news_queries m).news_queries).length =
      (m.actor_input.text.splitOn "\n").length ∧
    ((capture_news_queries m).news_queries).get? i =
      ((m.actor_input.text.splitOn "\n").get? i).map
        (fun q => q.replace "\"" "") := by
  constructor
  · simp [capture_news_queries]
  · simp [capture_news_queries]

/-- C9: `user_input` fired from `intro`, `user_views_answer` or
`user_views_no_bots_found` lands in `ai_decides_path`, and the exit action
of the source state (`capture_original_question` on all three) runs during
the transition, so `original_question` equals the raw payload text
afterwards. -/
theorem c9_user_input (s : MGState) (m : MultiGenieModel) (p : ActorInput)
    (h : s = MGState.intro ∨ s = MGState.user_views_answer ∨
      s = MGState.user_views_no_bots_found) :
    fire s .user_input m p =
      .ok (.ai_decides_path,
        { m with actor_input := p, original_question := p.text }) := by
  rcases h with h | h | h <;> subst h <;> rfl

/-- Witness for C9: Scenario A, `user_input` from `intro` with payload
`"What is X?"`. -/
theorem c9_user_input_witness :
    fire .intro .user_input initModel ⟨"What is X?", none⟩ =
      .ok (.ai_decides_path,
        { initModel with actor_input := ⟨"What is X?", none⟩,
                         original_question := "What is X?" }) :=
  c9_user_input .intro initModel ⟨"What is X?", none⟩ (Or.inl rfl)

/-- C10: every entry stored in `rephrased_questions` by
`on_exit_ai_decides_path` has its `template` equal to the catalogue value
`model.bots[name]` of its bot name — the lookup succeeds, so the fallback
default `"bots/unknown_bot.jinja2"` passed to `.get` is never stored. -/
theorem c10_template_from_catalogue (m m' : MultiGenieModel)
    (h : on_exit_ai_decides_path m = .ok m') :
    ∀ e ∈ m'.rephrased_questions,
      m.bots.lookup e.name = some e.template := by
  simp only [on_exit_ai_decides_path] at h
  split at h
  · exact absurd h (by simp)
  · rename_i kvs hkvs
    split at h
    · exact absurd h (by simp)
    · rename_i es hes
      cases h
      intro e he
      exact rephrase_loop_template m.bots kvs es hes e he

/-- Witness for C10 at Scenario B: the stored entry's template is the
catalogue value of `"Task Dictionary"`. -/
theorem c10_template_from_catalogue_witness :
    List.lookup "Task Dictionary" modelScenarioB.bots =
      some "task_dictionary/task_bot.jinja2" :=
  c10_template_from_catalogue modelScenarioB modelScenarioBAfter rfl
    { name := "Task Dictionary",
      template := "task_dictionary/task_bot.jinja2",
      question := Json.str "q1", reason := Json.str "r1" }
    (List.mem_singleton.mpr rfl)

/-- C1, counterexample: with a conversation model whose
`rephrased_questions` is non-empty from an earlier round, firing
`processing_done` from `ai_decides_path` with the payload `{}` does move
the machine to `user_views_no_bots_found`, but `rephrased_questions` is
overwritten with the empty list — it is *not* left unchanged. -/
theorem c1_counterexample :
    fire .ai_decides_path .processing_done modelWithPriorRound payloadEmptyObj =
      .ok (.user_views_no_bots_found,
        { modelWithPriorRound with actor_input := payloadEmptyObj,
                                   rephrased_questions := [] }) ∧
    modelWithPriorRound.rephrased_questions ≠ [] := by
  constructor
  · rfl
  · simp [modelWithPriorRound]

/-- C1 amended: for every payload that is non-JSON text, or parses as a
mapping every entry of which the routing filter rejects without raising,
firing `processing_done` from `ai_decides_path` moves the machine to
`user_views_no_bots_found` and *sets* `model.rephrased_questions` to the
empty list (the capture step always assigns the filtered list, which is
empty here; it leaves the field unchanged only when it was already
empty). -/
theorem c1_amended (m : MultiGenieModel) (p : ActorInput)
    (h : p.loads = none ∨
      ∃ kvs, p.loads = some (.obj kvs) ∧
        ∀ nv ∈ kvs, exit_filter_test m.bots nv.1 nv.2 = .ok false) :
    fire .ai_decides_path .processing_done m p =
      .ok (.user_views_no_bots_found,
        { m with actor_input := p, rephrased_questions := [] }) := by
  have hbf : bots_found m p = .ok false := by
    rcases h with h0 | ⟨kvs, hp, hall⟩
    · simp [bots_found, h0]
    · have hall' : ∀ nv ∈ kvs, guard_entry_test m.bots nv.1 nv.2 = .ok false := by
        intro nv h'
        rw [← tests_agree]
        exact hall nv h'
      simp [bots_found, hp, Json.items,
        bots_found_loop_all_false m.bots kvs hall']
  have hexit : on_exit_ai_decides_path { m with actor_input := p } =
      .ok { m with actor_input := p, rephrased_questions := [] } := by
    rcases h with h0 | ⟨kvs, hp, hall⟩
    · simp [on_exit_ai_decides_path, h0, Json.items, rephrase_loop]
    · simp [on_exit_ai_decides_path, hp, Json.items,
        rephrase_loop_all_false m.bots kvs hall]
  simp [fire, transitions, resolveCand, evalGuard, hbf, exitAction, hexit]

/-- Witness for C1 (amended) at the empty mapping `{}` on a fresh model. -/
theorem c1_amended_witness :
    fire .ai_decides_path .processing_done initModel payloadEmptyObj =
      .ok (.user_views_no_bots_found,
        { initModel with actor_input := payloadEmptyObj,
                         rephrased_questions := [] }) :=
  c1_amended initModel payloadEmptyObj
    (Or.inr ⟨[], rfl, fun nv h' => absurd h' (List.not_mem_nil nv)⟩)

/-- C2, counterexample: the actor input `{"answer": "a"}` parses as a
mapping missing the `follow_up` key, yet `capture_answer` overwrites
`model.answer` before the `follow_up` lookup raises `KeyError` — a partial
write of `answer` without `follow_up` does occur. -/
theorem c2_counterexample :
    capture_answer modelAnswerOnly =
      .error (.keyError "follow_up",
        { modelAnswerOnly with answer := .str "a" }) ∧
    Json.str "a" ≠ modelAnswerOnly.answer := by
  constructor
  · rfl
  · simp [modelAnswerOnly, Json.str.injEq]

/-- C2 amended: `capture_answer` leaves both fields unchanged on non-JSON
input and when the `answer` lookup raises (non-mapping JSON or missing
`answer` key, the latter raising `KeyError`); it overwrites both fields
when both lookups succeed; but when `answer` succeeds and `follow_up`
raises, `answer` alone is overwritten — the write is not atomic. -/
theorem c2_amended (m : MultiGenieModel) :
    (m.actor_input.loads = none → capture_answer m = .ok m) ∧
    (∀ d, m.actor_input.loads = some d →
      (∀ e, d.getItem "answer" = .error e →
        capture_answer m = .error (e, m)) ∧
      (∀ a e, d.getItem "answer" = .ok a →
        d.getItem "follow_up" = .error e →
        capture_answer m = .error (e, { m with answer := a })) ∧
      (∀ a f, d.getItem "answer" = .ok a →
        d.getItem "follow_up" = .ok f →
        capture_answer m = .ok { m with answer := a, follow_up := f })) := by
  refine ⟨fun h0 => by simp [capture_answer, h0], fun d hd => ⟨?_, ?_, ?_⟩⟩
  · intro e he
    simp [capture_answer, hd, he]
  · intro a e ha he
    simp [capture_answer, hd, ha, he]
  · intro a f ha hf
    simp [capture_answer, hd, ha, hf]

/-- Witness for C2 (amended), full-parse case: the actor input
`{"answer": "a", "follow_up": "f"}` overwrites both fields. -/
theorem c2_amended_witness :
    capture_answer { initModel with actor_input := payloadAnswerFollowUp } =
      .ok { initModel with actor_input := payloadAnswerFollowUp,
                           answer := .str "a", follow_up := .str "f" } :=
  ((c2_amended { initModel with actor_input := payloadAnswerFollowUp }).2
    (.obj [("answer", .str "a"), ("follow_up", .str "f")]) rfl).2.2
    (.str "a") (.str "f") rfl rfl

/-- C4, counterexample: on the payload
`{"Task Dictionary": {"reason": "r"}}` — a known bot name whose truthy
value lacks the `question` key — the guard `bots_found` raises `KeyError`
instead of returning a boolean: it is not a total function into booleans. -/
theorem c4_counterexample :
    bots_found initModel payloadNoQuestion = .error (.keyError "question") :=
  rfl

/-- C4 amended: `bots_found` returns `false` when the payload fails to
parse; when the payload parses as a mapping all of whose entry tests
evaluate without raising, it returns true iff at least one key is a known
bot name whose truthy value carries a truthy `question` field; but the
entry test (hence the guard) raises when the parsed JSON is not a mapping
or a truthy known-bot value lacks the `question` key. -/
theorem c4_amended (m : MultiGenieModel) (p : ActorInput) :
    (p.loads = none → bots_found m p = .ok false) ∧
    (∀ kvs, p.loads = some (.obj kvs) →
      (∀ nv ∈ kvs, ∃ b, guard_entry_test m.bots nv.1 nv.2 = .ok b) →
      bots_found m p =
        .ok (kvs.any fun nv => entry_accepts m.bots nv.1 nv.2)) ∧
    (∀ n v, entry_accepts m.bots n v = true ↔
      (keysContain m.bots n = true ∧ v.truthy = true ∧
        ∃ q, v.getItem "question" = .ok q ∧ q.truthy = true)) := by
  refine ⟨fun h0 => by simp [bots_found, h0], ?_, ?_⟩
  · intro kvs hp hall
    simp [bots_found, hp, Json.items, bots_found_loop_total m.bots kvs hall]
  · intro n v
    constructor
    · intro h
      cases hk : keysContain m.bots n with
      | false => simp [entry_accepts, guard_entry_test, hk] at h
      | true =>
        cases ht : v.truthy with
        | false => simp [entry_accepts, guard_entry_test, hk, ht] at h
        | true =>
          cases hq : v.getItem "question" with
          | error e0 => simp [entry_accepts, guard_entry_test, hk, ht, hq] at h
          | ok q =>
            cases hqt : q.truthy with
            | false =>
              simp [entry_accepts, guard_entry_test, hk, ht, hq, hqt] at h
            | true => exact ⟨rfl, rfl, q, rfl, hqt⟩
    · rintro ⟨hk, ht, q, hq, hqt⟩
      simp [entry_accepts, guard_entry_test, hk, ht, hq, hqt]

/-- Witness for C4 (amended) at Scenario B's payload: the guard returns
`true` without raising. -/
theorem c4_amended_witness :
    bots_found initModel payloadScenarioB = .ok true :=
  (c4_amended initModel payloadScenarioB).2.1
    [("Task Dictionary",
      .obj [("question", .str "q1"), ("reason", .str "r1")])] rfl
    (fun nv h' => by
      rw [List.mem_singleton] at h'
      subst h'
      exact ⟨true, rfl⟩)

/-- C5, counterexample: on the payload
`{"Task Dictionary": {"reason": "r"}}` the guard raises, so firing
`processing_done` from `ai_decides_path` resolves to *neither* of the two
candidate destinations — the trigger does not always resolve to exactly
one destination. -/
theorem c5_counterexample :
    fire .ai_decides_path .processing_done initModel payloadNoQuestion =
      .error (.keyError "question", initModel) :=
  rfl

/-- C5 amended: whenever the guard `bots_found` evaluates without raising,
exactly one of the two candidate transitions out of `ai_decides_path`
matches — `cond="bots_found"` evaluates to the guard's value,
`unless="bots_found"` to its negation, and resolution picks
`user_views_rephrasing` or `user_views_no_bots_found` accordingly; but
when the guard raises, resolution aborts and neither candidate matches. -/
theorem c5_amended (m : MultiGenieModel) (p : ActorInput) (b : Bool)
    (h : bots_found m p = .ok b) :
    evalGuard .bots_found_cond m p = .ok b ∧
    evalGuard .bots_found_unless m p = .ok (!b) ∧
    resolveCand m p .ai_decides_path (transitions .processing_done) =
      .ok (some (if b then MGState.user_views_rephrasing
                 else MGState.user_views_no_bots_found)) := by
  refine ⟨h, ?_, ?_⟩
  · simp [evalGuard, h]
  · cases b <;> simp [resolveCand, transitions, evalGuard, h]

/-- Witness for C5 (amended) at the payload `{}`: the guard returns
`false` and resolution picks `user_views_no_bots_found`. -/
theorem c5_amended_witness :
    evalGuard .bots_found_cond initModel payloadEmptyObj = .ok false ∧
    evalGuard .bots_found_unless initModel payloadEmptyObj = .ok true ∧
    resolveCand initModel payloadEmptyObj .ai_decides_path
        (transitions .processing_done) =
      .ok (some MGState.user_views_no_bots_found) :=
  c5_amended initModel payloadEmptyObj false rfl

/-- C7: on an actor input that parses as a JSON list of well-formed
search-source entries, `capture_news` succeeds and stores exactly the
entries whose `results` list is non-empty, each projected to its first
result restricted to the allow-listed keys `{title, url, content,
publishedDate}` (absent keys omitted) — entries with zero results are
dropped. -/
theorem c7_capture_news (m : MultiGenieModel) (ns : List Json)
    (h1 : m.actor_input.loads = some (.arr ns))
    (h2 : ∀ n ∈ ns, GoodSource n) :
    capture_news m = .ok { m with news := specNews ns } := by
  simp [capture_news, h1, Json.pyIter, news_loop_spec ns h2]

/-- Witness for C7 at Scenario E's payload
`[{"results":[{"title":"t","url":"u"}]},{"results":[]}]`: the stored news
is `[{"title":"t","url":"u"}]`, the zero-result entry dropped. -/
theorem c7_capture_news_witness :
    capture_news modelScenarioE =
      .ok { modelScenarioE with
            news := [[("title", Json.str "t"), ("url", Json.str "u")]] } :=
  c7_capture_news modelScenarioE scenarioESources rfl
    (by
      intro n hn
      simp only [scenarioESources, List.mem_cons, List.mem_singleton,
        List.not_mem_nil, or_false] at hn
      rcases hn with h | h <;> subst h
      · exact ⟨[Json.obj [("title", .str "t"), ("url", .str "u")]], rfl,
          fun r hr => by cases hr; exact ⟨_, rfl⟩⟩
      · exact ⟨[], rfl, fun r hr => by cases hr⟩)

end Hyperagent
